import Mathlib

/-!
Shallow embedding of the pack-file reader (`src/lib/pack.c`) and of the
core state manipulated by the history browser (`src/tog/tog.c`), together
with theorems settling the frozen claims about them.

Machine integers are modelled as `Nat`/`Int`; 64-bit wraparound is made
explicit with `% 2^64` where the C computes in `uint64_t`.  File reads are
modelled by lists of bytes (`List Nat`, each element < 256 in intended use)
and a read position; `fread` of one byte from position `p` is list
pattern-matching on `bytes.drop p`.
-/

set_option maxRecDepth 4000

/-- Error kinds used by the embedded code, mirroring the `GOT_ERR_*`
constants that `src/lib/pack.c` and `src/tog/tog.c` raise.  `NoSpace` is
`GOT_ERR_NO_SPACE` (the spec calls it `Overflow`), `IterCompleted` is
`GOT_ERR_ITER_COMPLETED` (the spec calls it `Cancelled` at the blame
join), `RangeErr` is `GOT_ERR_RANGE`. -/
inductive GotErr where
  | BadPackIdx
  | PackIdxCsum
  | BadPackFile
  | NoSpace
  | NotImpl
  | NoObj
  | RangeErr
  | IterCompleted
  | ObjNotPacked
  | IoErr
deriving DecidableEq, Repr

/-! ## Pack index: fan-out verification (`verify_fanout_table`, pack.c:55-66) -/

/-- One iteration step of the loop `for (i = 0; i < 0xff - 1; i++)` in
`verify_fanout_table`.  `fuel` counts the remaining iterations; the caller
passes `254` so the `i < 254` test is the authoritative bound, exactly as
in the C loop (`0xff - 1 = 254`).  The fan-out is modelled as a function
from table index to the host-order 32-bit count (`be32toh` applied). -/
def verify_fanout_go (f : Nat → Nat) : Nat → Nat → Option GotErr
  | _, 0 => none
  | i, fuel + 1 =>
    if i < 254 then
      if f i > f (i + 1) then some .BadPackIdx
      else verify_fanout_go f (i + 1) fuel
    else none

/-- `verify_fanout_table` from pack.c:55-66: scans adjacent fan-out pairs
and returns `GOT_ERR_BAD_PACKIDX` at the first pair that decreases.  Note
the loop bound `i < 0xff - 1`: the pair `(fanout[254], fanout[255])` is
never examined.  `got_packidx_open` (pack.c:148-156) calls this right
after reading the table and fails with the returned error. -/
def verify_fanout_table (f : Nat → Nat) : Option GotErr :=
  verify_fanout_go f 0 254

/-- Fan-out table that is monotone on every checked pair but violates
monotonicity on the final pair `(254, 255)`: `f 254 = 5 > 4 = f 255`. -/
def c4_bad_fanout : Nat → Nat :=
  fun i => if i = 254 then 5 else if i = 255 then 4 else 0

/-! ## Object record header (`parse_object_type_and_size`, pack.c:413-447) -/

/-- Loop of `parse_object_type_and_size`.  `i` is the number of bytes
consumed so far; the check `i > 9` happens at the top of the `do`/`while`
body, before the next `fread`, exactly as in the C.  A short read maps to
`GOT_ERR_BAD_PACKIDX` (`got_ferror(packfile, GOT_ERR_BAD_PACKIDX)`).
Masks per the object record header layout: type in bits 4-6 of byte 0,
size bits 0-3 of byte 0 and bits 0-6 of later bytes, continuation bit 7.
The accumulator `s` is a `uint64_t`; the or-ed in summand is reduced
`% 2^64` to model the 64-bit arithmetic. -/
def parse_object_type_and_size_go (i t s : Nat) : List Nat → Except GotErr (Nat × Nat × Nat)
  | [] => if 9 < i then .error .NoSpace else .error .BadPackIdx
  | b :: rest =>
    if 9 < i then .error .NoSpace
    else if b &&& 0x80 = 0 then
      .ok (if i = 0 then (b &&& 0x70) >>> 4 else t,
           if i = 0 then b &&& 0x0f
           else s ||| (((b &&& 0x7f) <<< (4 + 7 * (i - 1))) % 18446744073709551616),
           i + 1)
    else
      parse_object_type_and_size_go (i + 1)
        (if i = 0 then (b &&& 0x70) >>> 4 else t)
        (if i = 0 then b &&& 0x0f
         else s ||| (((b &&& 0x7f) <<< (4 + 7 * (i - 1))) % 18446744073709551616))
        rest

/-- `parse_object_type_and_size` from pack.c:413-447, returning
`(type, size, len)` on success where `len` is the number of header bytes
consumed. -/
def parse_object_type_and_size (bytes : List Nat) : Except GotErr (Nat × Nat × Nat) :=
  parse_object_type_and_size_go 0 0 0 bytes

/-- A ten-byte size varint whose tenth byte clears the continuation bit:
nine `0x80` bytes followed by `0x01`. -/
def c5_ten_byte_header : List Nat :=
  [0x80, 0x80, 0x80, 0x80, 0x80, 0x80, 0x80, 0x80, 0x80, 0x01]

/-! ## Negative offset varint (`parse_negative_offset`, pack.c:474-504) -/

/-- Loop of `parse_negative_offset`.  `i` counts bytes consumed; the
check `i > 8` happens before the next read.  `o` is `int64_t` in the C; we
model it as `Nat` (the encodings of interest stay far below `2^63`, where
the C value is identical). -/
def parse_negative_offset_go (i o : Nat) : List Nat → Except GotErr (Nat × Nat)
  | [] => if 8 < i then .error .NoSpace else .error .BadPackIdx
  | b :: rest =>
    if 8 < i then .error .NoSpace
    else if b &&& 0x80 = 0 then
      .ok (if i = 0 then b &&& 0x7f else ((o + 1) <<< 7) + (b &&& 0x7f), i + 1)
    else
      parse_negative_offset_go (i + 1)
        (if i = 0 then b &&& 0x7f else ((o + 1) <<< 7) + (b &&& 0x7f))
        rest

/-- `parse_negative_offset` from pack.c:474-504, returning the decoded
value and the number of bytes consumed. -/
def parse_negative_offset (bytes : List Nat) : Except GotErr (Nat × Nat) :=
  parse_negative_offset_go 0 0 bytes

/-- `parse_offset_delta` from pack.c:506-523: decode the negative offset
varint at the current read position (`bytes`) and subtract it from the
delta record's offset; a result `<= 0` is `GOT_ERR_BAD_PACKFILE`,
otherwise the base object's offset is returned. -/
def parse_offset_delta (bytes : List Nat) (offset : Int) : Except GotErr Int :=
  match parse_negative_offset bytes with
  | .error e => .error e
  | .ok (o, _len) =>
    let base : Int := offset - (o : Int)
    if base ≤ 0 then .error .BadPackFile else .ok base

/-! ## Pack index lookup (`get_object_idx`, pack.c:286-309) -/

/-- Modelled from the spec: `got_object_id_cmp` lives in object.c, outside
this repository slice; spec section 3 defines an ObjectId as "a fixed
20-byte value. Ordered lexically", so the comparator is a memcmp-style
three-way lexical comparison of the byte sequences, negative when the
first argument is smaller. -/
def got_object_id_cmp : List Nat → List Nat → Int
  | [], [] => 0
  | [], _ :: _ => -1
  | _ :: _, [] => 1
  | a :: as, b :: bs => if a < b then -1 else if b < a then 1 else got_object_id_cmp as bs

/-- The fields of `struct got_packidx_v2_hdr` that `get_object_idx` reads:
the 256-entry fan-out table (host order, `betoh32` applied) and the sorted
object ids.  An id is its list of 20 bytes. -/
structure got_packidx where
  fanout_table : Nat → Nat
  sorted_ids : List (List Nat)

/-- The `while (i < totobj)` scan of `get_object_idx` (pack.c:296-306).
`fuel` bounds the iteration count (the caller passes `totobj`, which is
enough since `i` increases every round); the `i < totobj` test is the
authoritative loop condition, as in the C.  On `cmp == 0` the index is
returned; on `cmp > 0` the loop `break`s and the function returns `-1`;
on `cmp < 0` the scan advances. -/
def get_object_idx_go (p : got_packidx) (id : List Nat) (totobj : Nat) : Nat → Nat → Int
  | _, 0 => -1
  | i, fuel + 1 =>
    if i < totobj then
      if got_object_id_cmp id (p.sorted_ids.getD i []) = 0 then (i : Int)
      else if got_object_id_cmp id (p.sorted_ids.getD i []) > 0 then -1
      else get_object_idx_go p id totobj (i + 1) fuel
    else -1

/-- `get_object_idx` from pack.c:286-309: start the scan at
`fanout[id[0] - 1]` (or 0 when `id[0] == 0`) and scan up to
`totobj = fanout[0xff]`. -/
def get_object_idx (p : got_packidx) (id : List Nat) : Int :=
  let id0 := id.getD 0 0
  let totobj := p.fanout_table 0xff
  let i := if id0 > 0 then p.fanout_table (id0 - 1) else 0
  get_object_idx_go p id totobj i totobj

/-- The spec's scenario S1 object ids: `00...01`, `42 00...00`,
`42 00...00 ff` (20 bytes each, ascending). -/
def s1_id_a : List Nat := [0, 0, 0, 0, 0, 0, 0, 0, 0, 0, 0, 0, 0, 0, 0, 0, 0, 0, 0, 1]
def s1_id_b : List Nat := [0x42, 0, 0, 0, 0, 0, 0, 0, 0, 0, 0, 0, 0, 0, 0, 0, 0, 0, 0, 0]
def s1_id_c : List Nat := [0x42, 0, 0, 0, 0, 0, 0, 0, 0, 0, 0, 0, 0, 0, 0, 0, 0, 0, 0, 0xff]

/-- The spec's scenario S1 pack index: N = 3 ids in ascending order, with
fan-out cumulative counts 1 below bucket 0x42 and 3 from 0x42 on. -/
def s1_packidx : got_packidx :=
  { fanout_table := fun b => if b < 0x42 then 1 else 3
    sorted_ids := [s1_id_a, s1_id_b, s1_id_c] }

/-! ## Plain object extraction (`dump_plain_object`, pack.c:789-811, and
`got_packfile_extract_object`, pack.c:842-891) -/

/-- The fields of `struct got_object` that `got_packfile_extract_object`
reads: resolved type, size, payload offset into the pack file, and the
`GOT_OBJ_FLAG_PACKED` bit.  (For plain objects `open_plain_object` sets
`pack_offset = offset + tslen`, the payload position.) -/
structure got_object where
  otype : Nat
  size : Nat
  pack_offset : Nat
  flags_packed : Bool

/-- The copy loop of `dump_plain_object` (pack.c:794-807): while bytes
remain, read `len = MIN(size, 2048)` bytes from the pack stream and append
them to the output; a short read is `GOT_ERR_BAD_PACKFILE`.  `fuel` bounds
the iterations (the caller passes `size`, enough since `len >= 1` per
round); the unreachable fuel-exhaustion case reuses the same error. -/
def dump_plain_go (fuel : Nat) (input : List Nat) (size : Nat) (out : List Nat) :
    Except GotErr (List Nat) :=
  if size = 0 then .ok out
  else match fuel with
    | 0 => .error .BadPackFile
    | fuel' + 1 =>
      if input.length < min size 2048 then .error .BadPackFile
      else dump_plain_go fuel' (input.drop (min size 2048)) (size - min size 2048)
        (out ++ input.take (min size 2048))

/-- `dump_plain_object` from pack.c:789-811: copy exactly `size` raw bytes
from the pack stream (positioned at the payload) to the output stream,
then rewind the output.  No inflation is performed anywhere in this path
(zlib is never invoked in pack.c). -/
def dump_plain_object (input : List Nat) (size : Nat) : Except GotErr (List Nat) :=
  dump_plain_go size input size []

/-- `got_packfile_extract_object` from pack.c:842-891, restricted to the
plain-kind dispatch that claim C2 is about: require the packed flag, seek
to `obj->pack_offset`, and for commit (1) / tree (2) / blob (3) run
`dump_plain_object` with `obj->size`.  The ref-delta branch
(`dump_ref_delta_object`) and the `NOT_IMPL` branches are collapsed to
the latter's error since no claim concerns them. -/
def got_packfile_extract_object (pack : List Nat) (obj : got_object) :
    Except GotErr (List Nat) :=
  if obj.flags_packed = false then .error .ObjNotPacked
  else if obj.otype = 1 ∨ obj.otype = 2 ∨ obj.otype = 3 then
    dump_plain_object (pack.drop obj.pack_offset) obj.size
  else .error .NotImpl

/-- A pack whose payload at offset 0 is the zlib deflate stream of the
single byte `a` (0x61): `78 9c 4b 04 00 00 62 00 62`.  Inflating it gives
`[0x61]`; its raw first byte is `0x78`. -/
def c2_pack : List Nat := [0x78, 0x9c, 0x4b, 0x04, 0x00, 0x00, 0x62, 0x00, 0x62]

/-- A packed blob of uncompressed size 1 whose payload starts at offset 0
of `c2_pack`. -/
def c2_obj : got_object := { otype := 3, size := 1, pack_offset := 0, flags_packed := true }

/-! ## Delta chain resolution (`resolve_delta_chain`, pack.c:616-652,
with `resolve_offset_delta`, pack.c:528-554, and `resolve_ref_delta`,
pack.c:556-614) -/

/-- One chain entry, as built by `got_delta_open`: the pack it lives in,
the delta type, the offset passed as `delta_offset`, and the size. -/
structure got_delta where
  path_packfile : String
  delta_type : Nat
  offset : Nat
  size : Nat

/-- The file-system surroundings of the resolver: `packs` maps a pack
file path to its bytes (replacing `FILE *`/`fopen`), and `lookup` is the
ref-delta base search — `search_packidx` + `get_object_offset` +
`get_packfile_path` collapsed into one oracle from a 20-byte id to the
containing pack's path and the base object's offset (`none` for both the
no-object and bad-offset failures). -/
structure DeltaEnv where
  packs : String → List Nat
  lookup : List Nat → Option (String × Nat)

/-- `resolve_delta_chain` from pack.c:616-652, fuelled.  `none` means the
recursion has not finished within `fuel` nested calls — the C function
has no depth cap, so its divergence shows up as exhaustion of every fuel.
The arguments mirror the C: the chain built so far (the C appends to
`deltas` in place), the pack path, the current read position of the pack
stream (after the just-parsed header), and the entry's
`delta_type`/`delta_offset`/`delta_size`.  For an offset delta
(`resolve_offset_delta`) the negative offset is read at the current
position and subtracted from `delta_offset`; the resolver then seeks to
the base offset, parses its header and recurses with both the new read
position and the new `delta_offset` equal to `base_offset + base_tslen`,
exactly as pack.c:552-553 passes `base_offset + base_tslen`.  For a ref
delta (`resolve_ref_delta`) a 20-byte id is read at the current position
(short read is `GOT_ERR_IO`), the base pack and offset are looked up, and
the resolver recurses in the base pack the same way (pack.c:607-608). -/
def resolve_delta_chain (env : DeltaEnv) :
    Nat → List got_delta → String → Nat → Nat → Nat → Nat →
    Option (Except GotErr (List got_delta))
  | 0, _, _, _, _, _, _ => none
  | fuel + 1, deltas, path, pos, delta_type, delta_offset, delta_size =>
    if delta_type = 1 ∨ delta_type = 2 ∨ delta_type = 3 ∨ delta_type = 4 then
      some (.ok (deltas ++ [⟨path, delta_type, delta_offset, delta_size⟩]))
    else if delta_type = 6 then
      match parse_offset_delta ((env.packs path).drop pos) (delta_offset : Int) with
      | .error e => some (.error e)
      | .ok base =>
        match parse_object_type_and_size ((env.packs path).drop base.toNat) with
        | .error e => some (.error e)
        | .ok (bt, bs, btslen) =>
          resolve_delta_chain env fuel
            (deltas ++ [⟨path, delta_type, delta_offset, delta_size⟩])
            path (base.toNat + btslen) bt (base.toNat + btslen) bs
    else if delta_type = 7 then
      if ((env.packs path).drop pos).length < 20 then some (.error .IoErr)
      else
        match env.lookup (((env.packs path).drop pos).take 20) with
        | none => some (.error .NoObj)
        | some (bpath, boff) =>
          match parse_object_type_and_size ((env.packs bpath).drop boff) with
          | .error e => some (.error e)
          | .ok (bt, bs, btslen) =>
            resolve_delta_chain env fuel
              (deltas ++ [⟨path, delta_type, delta_offset, delta_size⟩])
              bpath (boff + btslen) bt (boff + btslen) bs
    else some (.error .NotImpl)

/-- A pack containing a cyclic offset-delta reference.  The record at
offset 4 is an offset-delta (header `E0 00`, type 6, size 0) whose
negative-offset varint at offset 6 decodes to 3, so its base offset is
`4 - 3 = 1 > 0`; the header at offset 1 (`E0 00`) is again an
offset-delta whose varint at offset 3 decodes to 2, giving base offset
`3 - 2 = 1` back to itself: the resolver state repeats forever. -/
def c3_cycle_pack : List Nat := [0x00, 0xE0, 0x00, 0x02, 0xE0, 0x00, 0x03]

/-- Environment holding only `c3_cycle_pack` (ref-delta lookups never
happen on the cyclic input). -/
def c3_env : DeltaEnv :=
  { packs := fun _ => c3_cycle_pack, lookup := fun _ => none }

/-- A trivial environment for exercising the resolver on a plain entry. -/
def c3_env0 : DeltaEnv :=
  { packs := fun _ => [], lookup := fun _ => none }

/-- Divergence of the resolver on the cyclic pack: starting from the
offset-delta record at offset 4 (read position 6, the byte after its
2-byte header), no amount of fuel makes `resolve_delta_chain` return. -/
def resolve_cycle_diverges : Prop :=
  ∀ fuel, resolve_delta_chain c3_env fuel [] "p" 6 6 4 0 = none

/-! ## Fatal signal flags and view loop guard (tog.c:600-641, 1136) -/

/-- The five `volatile sig_atomic_t` signal-received flags of tog.c:600-604,
each set to 1 by its signal handler. -/
structure TogSignals where
  tog_sigwinch_received : Bool
  tog_sigpipe_received : Bool
  tog_sigcont_received : Bool
  tog_sigint_received : Bool
  tog_sigterm_received : Bool

/-- `tog_fatal_signal_received` from tog.c:636-641, verbatim: it tests
`tog_sigpipe_received`, then `tog_sigint_received` twice;
`tog_sigterm_received` is never consulted. -/
def tog_fatal_signal_received (s : TogSignals) : Bool :=
  s.tog_sigpipe_received || s.tog_sigint_received || s.tog_sigint_received

/-- The guard of the main loop in `view_loop` (tog.c:1136):
`while (!TAILQ_EMPTY(&views) && !done && !tog_fatal_signal_received())`. -/
def view_loop_continues (views_nonempty done : Bool) (s : TogSignals) : Bool :=
  views_nonempty && !done && !tog_fatal_signal_received s

/-- Signal state after SIGTERM has been delivered and nothing else:
only `tog_sigterm_received` is set. -/
def c7_sigterm_only : TogSignals :=
  { tog_sigwinch_received := false, tog_sigpipe_received := false,
    tog_sigcont_received := false, tog_sigint_received := false,
    tog_sigterm_received := true }

/-! ## Numeric key-prefix accumulation (`get_compound_key`, tog.c:898-930) -/

/-- One iteration of the `do`/`while` accumulation in `get_compound_key`
(tog.c:914-921): `if (n >= 9999999) n = 9999999; else n = n * 10 + (c - '0');`
— the clamp is applied to the accumulator BEFORE the digit is folded in. -/
def get_compound_key_step (n d : Nat) : Nat :=
  if 9999999 ≤ n then 9999999 else n * 10 + d

/-- The count `get_compound_key` stores into `view->count`: the fold of
`get_compound_key_step` over the digit keys pressed (first digit `1..9`
via `view_input`, subsequent digits `0..9` within the timeout). -/
def get_compound_key_count (digits : List Nat) : Nat :=
  List.foldl get_compound_key_step 0 digits

/-- The plain decimal value of a digit sequence,
`sum(digit_i * 10^(k-1-i))`. -/
def decimal_value (digits : List Nat) : Nat :=
  List.foldl (fun n d => n * 10 + d) 0 digits

/-! ## Blame annotation callback (`blame_cb`, tog.c:4636-4676) and join
mapping (`stop_blame`, tog.c:4736-4787) -/

/-- One slot of the blame view's `lines[]` array
(`struct tog_blame_line`): the annotated bit and the annotating commit
id. -/
structure tog_blame_line where
  annotated : Bool
  id : Option (List Nat)
deriving DecidableEq

/-- `blame_cb` from tog.c:4636-4676 as a state transformer on the
`lines[]` array: first the range check (`GOT_ERR_RANGE`), then — under the
global mutex — the quit check (`GOT_ERR_ITER_COMPLETED` when the user has
quit the blame view), the `lineno == -1` no-change case, the
already-annotated skip, and finally the single write of the slot
`lines[lineno - 1]`.  The `none` case of the list lookup is unreachable in
the program (the range check bounds `lineno` by `a->nlines`, the
allocation size); it performs no write. -/
def blame_cb (a_nlines : Nat) (quit : Bool) (lines : List tog_blame_line)
    (nlines lineno : Int) (id : List Nat) : List tog_blame_line × Option GotErr :=
  if nlines ≠ (a_nlines : Int) ∨ (lineno ≠ -1 ∧ lineno < 1) ∨ lineno > (a_nlines : Int) then
    (lines, some .RangeErr)
  else if quit then (lines, some .IterCompleted)
  else if lineno = -1 then (lines, none)
  else
    match lines.get? (lineno.toNat - 1) with
    | none => (lines, none)
    | some line =>
      if line.annotated then (lines, none)
      else (lines.set (lineno.toNat - 1) ⟨true, some id⟩, none)

/-- The join-result mapping of `stop_blame` (tog.c:4753-4754):
`if (err && err->code == GOT_ERR_ITER_COMPLETED) err = NULL;` — the
worker's cancellation error is converted to success. -/
def stop_blame_map : Option GotErr → Option GotErr
  | some .IterCompleted => none
  | e => e

/-- An unannotated three-line `lines[]` array. -/
def c9_lines0 : List tog_blame_line :=
  [⟨false, none⟩, ⟨false, none⟩, ⟨false, none⟩]

/-! ## Commit queue (`queue_commits`, tog.c:1693-1753; `pop_commit` and
`free_commits`, tog.c:1642-1659) -/

/-- A commit queue entry; only the `idx` field matters to claim C10 (the
id and commit object are opaque). -/
structure commit_queue_entry where
  idx : Nat
deriving DecidableEq

/-- `struct commit_queue`: the entry count and the TAILQ read head to
tail. -/
structure commit_queue where
  ncommits : Nat
  head : List commit_queue_entry
deriving DecidableEq

/-- The append performed per loaded commit by `queue_commits`
(tog.c:1730-1732), under the global mutex:
`entry->idx = a->commits->ncommits; TAILQ_INSERT_TAIL(...); a->commits->ncommits++;`. -/
def queue_commits_append (q : commit_queue) : commit_queue :=
  { ncommits := q.ncommits + 1, head := q.head ++ [⟨q.ncommits⟩] }

/-- `pop_commit` from tog.c:1642-1653: remove the first entry and
decrement `ncommits`. -/
def pop_commit (q : commit_queue) : commit_queue :=
  { ncommits := q.ncommits - 1, head := q.head.tail }

/-- The `while (!TAILQ_EMPTY(&commits->head)) pop_commit(commits);` loop
of `free_commits` (tog.c:1655-1659); the list argument is the loop's
remaining work — it starts as `q.head` and `pop_commit` removes exactly
its first element each round. -/
def free_commits_go : List commit_queue_entry → commit_queue → commit_queue
  | [], q => q
  | _ :: rest, q => free_commits_go rest (pop_commit q)

/-- `free_commits` from tog.c:1655-1659. -/
def free_commits (q : commit_queue) : commit_queue :=
  free_commits_go q.head q

/-- The two commit-queue operations the program performs: the loader's
append (`queue_commits`) and clearing the whole queue (`free_commits`,
the only caller of `pop_commit`, used by `close_log_view` and by log
reload). -/
inductive LogOp where
  | append : LogOp
  | clear : LogOp

/-- Apply one queue operation. -/
def log_op_apply (q : commit_queue) : LogOp → commit_queue
  | .append => queue_commits_append q
  | .clear => free_commits q

/-- Run a sequence of queue operations from the empty queue
(`TAILQ_INIT`, `ncommits = 0`). -/
def run_log_ops (ops : List LogOp) : commit_queue :=
  List.foldl log_op_apply { ncommits := 0, head := [] } ops

/-! ## Theorems: C4, C5, C6 -/

theorem verify_fanout_go_iff (f : Nat → Nat) :
    ∀ fuel i, 254 ≤ i + fuel →
    (verify_fanout_go f i fuel = some .BadPackIdx ↔
      ∃ j, i ≤ j ∧ j < 254 ∧ f j > f (j + 1)) := by
  intro fuel
  induction fuel with
  | zero =>
    intro i hi
    simp only [verify_fanout_go]
    constructor
    · intro h; cases h
    · rintro ⟨j, hij, hj, _⟩; omega
  | succ n ih =>
    intro i hi
    simp only [verify_fanout_go]
    by_cases h254 : i < 254
    · simp only [if_pos h254]
      by_cases hviol : f i > f (i + 1)
      · simp only [if_pos hviol]
        constructor
        · intro _; exact ⟨i, le_refl i, h254, hviol⟩
        · intro _; trivial
      · simp only [if_neg hviol]
        rw [ih (i + 1) (by omega)]
        constructor
        · rintro ⟨j, hij, hj, hv⟩; exact ⟨j, by omega, hj, hv⟩
        · rintro ⟨j, hij, hj, hv⟩
          refine ⟨j, ?_, hj, hv⟩
          rcases Nat.eq_or_lt_of_le hij with rfl | hlt
          · exact absurd hv hviol
          · omega
    · simp only [if_neg h254]
      constructor
      · intro h; cases h
      · rintro ⟨j, hij, hj, _⟩; omega

/-- C4 (amended): `verify_fanout_table` — and hence `got_packidx_open`,
which propagates its error — rejects a fan-out table with
`GOT_ERR_BAD_PACKIDX` exactly when some adjacent pair with first index in
`0..253` decreases.  The final pair `(fanout[254], fanout[255])` is
outside the loop bound `i < 0xff - 1` and is never checked. -/
theorem c4_monotonicity_check_iff (f : Nat → Nat) :
    verify_fanout_table f = some .BadPackIdx ↔
      ∃ j, j < 254 ∧ f j > f (j + 1) := by
  rw [verify_fanout_table, verify_fanout_go_iff f 254 0 (by omega)]
  constructor
  · rintro ⟨j, _, hj, hv⟩; exact ⟨j, hj, hv⟩
  · rintro ⟨j, hj, hv⟩; exact ⟨j, Nat.zero_le j, hj, hv⟩

/-- C4 counterexample: a table whose only violation is on the final pair
`fanout[254] > fanout[255]` is accepted (`verify_fanout_table` returns
no error, so `got_packidx_open` does not fail with `BadPackIndex`),
contradicting the claim that such a table is rejected. -/
theorem c4_final_pair_unchecked_cex :
    verify_fanout_table c4_bad_fanout = none ∧
      c4_bad_fanout 254 > c4_bad_fanout 255 := by
  constructor
  · rfl
  · decide

theorem potas_go_step (i t s b : Nat) (rest : List Nat)
    (hi : ¬ 9 < i) (hb : ¬ b &&& 0x80 = 0) :
    parse_object_type_and_size_go i t s (b :: rest) =
      parse_object_type_and_size_go (i + 1)
        (if i = 0 then (b &&& 0x70) >>> 4 else t)
        (if i = 0 then b &&& 0x0f
         else s ||| (((b &&& 0x7f) <<< (4 + 7 * (i - 1))) % 18446744073709551616))
        rest := by
  simp only [parse_object_type_and_size_go, if_neg hi, if_neg hb]

theorem potas_go_over (i t s : Nat) (hi : 9 < i) :
    ∀ bytes, parse_object_type_and_size_go i t s bytes = .error .NoSpace := by
  intro bytes
  cases bytes with
  | nil => simp only [parse_object_type_and_size_go, if_pos hi]
  | cons b rest => simp only [parse_object_type_and_size_go, if_pos hi]

/-- C5 (amended): `parse_object_type_and_size` fails with the Overflow
error (`GOT_ERR_NO_SPACE`) whenever the continuation bit is still set on
each of the first ten header bytes, i.e. whenever an eleventh byte would
be required; the failure happens before any eleventh byte is read.  (A
ten-byte header whose tenth byte clears the continuation bit is
accepted.) -/
theorem c5_overflow_after_ten_bytes (b0 b1 b2 b3 b4 b5 b6 b7 b8 b9 : Nat)
    (rest : List Nat)
    (h0 : b0 &&& 0x80 ≠ 0) (h1 : b1 &&& 0x80 ≠ 0) (h2 : b2 &&& 0x80 ≠ 0)
    (h3 : b3 &&& 0x80 ≠ 0) (h4 : b4 &&& 0x80 ≠ 0) (h5 : b5 &&& 0x80 ≠ 0)
    (h6 : b6 &&& 0x80 ≠ 0) (h7 : b7 &&& 0x80 ≠ 0) (h8 : b8 &&& 0x80 ≠ 0)
    (h9 : b9 &&& 0x80 ≠ 0) :
    parse_object_type_and_size
      (b0 :: b1 :: b2 :: b3 :: b4 :: b5 :: b6 :: b7 :: b8 :: b9 :: rest) =
      .error .NoSpace := by
  rw [parse_object_type_and_size,
    potas_go_step 0 _ _ _ _ (by omega) h0,
    potas_go_step 1 _ _ _ _ (by omega) h1,
    potas_go_step 2 _ _ _ _ (by omega) h2,
    potas_go_step 3 _ _ _ _ (by omega) h3,
    potas_go_step 4 _ _ _ _ (by omega) h4,
    potas_go_step 5 _ _ _ _ (by omega) h5,
    potas_go_step 6 _ _ _ _ (by omega) h6,
    potas_go_step 7 _ _ _ _ (by omega) h7,
    potas_go_step 8 _ _ _ _ (by omega) h8,
    potas_go_step 9 _ _ _ _ (by omega) h9,
    potas_go_over 10 _ _ (by omega)]

theorem c5_overflow_witness :
    parse_object_type_and_size
      (128 :: 128 :: 128 :: 128 :: 128 :: 128 :: 128 :: 128 :: 128 :: 128 :: []) =
      .error .NoSpace :=
  c5_overflow_after_ten_bytes 128 128 128 128 128 128 128 128 128 128 []
    (by decide) (by decide) (by decide) (by decide) (by decide)
    (by decide) (by decide) (by decide) (by decide) (by decide)

/-- C5 counterexample: a ten-byte size varint whose tenth byte has the
continuation bit clear is accepted by `parse_object_type_and_size`
(returning type 0, size `2^60`, header length 10), contradicting the
claim that no ten-byte size varint is ever accepted. -/
theorem c5_ten_byte_accepted_cex :
    parse_object_type_and_size c5_ten_byte_header =
      .ok (0, 1152921504606846976, 10) := rfl

/-- C6: `parse_offset_delta` validates the base offset: with the
negative-offset varint decoding to `o`, it fails with
`GOT_ERR_BAD_PACKFILE` whenever `off - o <= 0` (in particular whenever
`o >= off`), and otherwise returns `base_offset = off - o`. -/
theorem c6_offset_delta_validation (bytes : List Nat) (off : Int) (o len : Nat)
    (h : parse_negative_offset bytes = .ok (o, len)) :
    (off - (o : Int) ≤ 0 → parse_offset_delta bytes off = .error .BadPackFile) ∧
    (0 < off - (o : Int) → parse_offset_delta bytes off = .ok (off - (o : Int))) := by
  constructor
  · intro hle
    simp only [parse_offset_delta, h, if_pos hle]
  · intro hpos
    simp only [parse_offset_delta, h]
    rw [if_neg (by omega)]

theorem c6_offset_delta_witness :
    parse_offset_delta [5] 3 = .error .BadPackFile ∧
      parse_offset_delta [5] 10 = .ok 5 := by
  refine ⟨(c6_offset_delta_validation [5] 3 5 1 rfl).1 (by decide), ?_⟩
  have h := (c6_offset_delta_validation [5] 10 5 1 rfl).2 (by decide)
  simpa using h

/-! ## Theorems: C1, C2 -/

/-- C1 (code evaluation at the failing input): on the spec's scenario S1
index, looking up the id `42 00...00 ff` — which the index contains at
position 2 — returns `-1` (absent).  The scan starts at the bucket lower
bound `fanout[0x41] = 1`, compares against `sorted_ids[1] = 42 00...00`,
finds the sought id greater (`cmp > 0`) and `break`s out of the loop, so
any id that is not the first entry of its fan-out bucket is reported
absent. -/
theorem c1_lookup_misses_present_id :
    get_object_idx s1_packidx s1_id_c = -1 ∧
      s1_packidx.sorted_ids.getD 2 [] = s1_id_c := by
  exact ⟨rfl, rfl⟩

theorem dump_plain_go_raw :
    ∀ (fuel : Nat) (input : List Nat) (size : Nat) (out : List Nat),
    size ≤ input.length → size ≤ fuel →
    dump_plain_go fuel input size out = .ok (out ++ input.take size) := by
  intro fuel
  induction fuel with
  | zero =>
    intro input size out h1 h2
    have hz : size = 0 := by omega
    subst hz
    simp [dump_plain_go]
  | succ n ih =>
    intro input size out h1 h2
    by_cases h0 : size = 0
    · subst h0; simp [dump_plain_go]
    · rw [dump_plain_go, if_neg h0]
      generalize hm : min size 2048 = m
      have hm1 : 1 ≤ m := by
        rw [← hm]
        exact le_min (by omega) (by norm_num)
      have hm2 : m ≤ size := by
        rw [← hm]
        exact Nat.min_le_left _ _
      have hA : size - m ≤ (input.drop m).length := by
        rw [List.length_drop]
        omega
      have hB : size - m ≤ n := by omega
      rw [if_neg (by omega)]
      rw [ih (input.drop m) (size - m) (out ++ input.take m) hA hB]
      rw [List.append_assoc, ← List.take_add, Nat.add_sub_cancel' hm2]

/-- C2 (code evaluation): `got_packfile_extract_object` on a plain packed
object (commit, tree or blob) yields exactly `obj->size` RAW bytes copied
from the pack file starting at `obj->pack_offset` — `dump_plain_object`
never feeds the payload through inflate, so the produced stream is the
deflated payload prefix, not the inflated object bytes the claim
describes. -/
theorem c2_extract_plain_is_raw_copy (pack : List Nat) (obj : got_object)
    (hp : obj.flags_packed = true)
    (ht : obj.otype = 1 ∨ obj.otype = 2 ∨ obj.otype = 3)
    (hs : obj.pack_offset + obj.size ≤ pack.length) :
    got_packfile_extract_object pack obj =
      .ok ((pack.drop obj.pack_offset).take obj.size) := by
  rw [got_packfile_extract_object, hp]
  rw [if_neg (by simp)]
  rw [if_pos ht]
  rw [dump_plain_object]
  rw [dump_plain_go_raw obj.size (pack.drop obj.pack_offset) obj.size []
    (by simp [List.length_drop]; omega) (le_refl _)]
  simp

/-- C2 witness at the failing input: extracting `c2_obj` (a blob of
uncompressed size 1) from `c2_pack` (whose payload is the deflate stream
of the byte 0x61) returns the raw deflated byte `0x78`, not the inflated
content `0x61`. -/
theorem c2_extract_witness :
    got_packfile_extract_object c2_pack c2_obj = .ok [0x78] :=
  (c2_extract_plain_is_raw_copy c2_pack c2_obj rfl (Or.inr (Or.inr rfl))
    (by decide)).trans rfl

/-! ## Theorems: C3 -/

theorem c3_step_entry (fuel : Nat) (ds : List got_delta) :
    resolve_delta_chain c3_env (fuel + 1) ds "p" 6 6 4 0 =
      resolve_delta_chain c3_env fuel (ds ++ [⟨"p", 6, 4, 0⟩]) "p" 3 6 3 0 := rfl

theorem c3_step_cycle (fuel : Nat) (ds : List got_delta) :
    resolve_delta_chain c3_env (fuel + 1) ds "p" 3 6 3 0 =
      resolve_delta_chain c3_env fuel (ds ++ [⟨"p", 6, 3, 0⟩]) "p" 3 6 3 0 := rfl

theorem c3_cycle_none : ∀ (fuel : Nat) (ds : List got_delta),
    resolve_delta_chain c3_env fuel ds "p" 3 6 3 0 = none := by
  intro fuel
  induction fuel with
  | zero => intro ds; rfl
  | succ n ih =>
    intro ds
    rw [c3_step_cycle n ds]
    exact ih _

/-- C3 counterexample: on the cyclic pack `c3_cycle_pack`,
`resolve_delta_chain` never returns — for every recursion depth the
resolver is still chasing the self-referential offset-delta, so it
neither produces a chain nor fails with `BadPackFile` after any bounded
depth, contradicting the claim that it always returns. -/
theorem c3_cycle_counterexample : resolve_cycle_diverges := by
  intro fuel
  cases fuel with
  | zero => rfl
  | succ n =>
    rw [c3_step_entry n []]
    exact c3_cycle_none n _

/-- C3 (amended): whenever `resolve_delta_chain` does return successfully
it has appended at least one entry (the original delta) and the chain's
terminal entry is of a plain kind (commit 1, tree 2, blob 3 or tag 4);
but the resolver is not total — `resolve_cycle_diverges` shows a cyclic
offset-delta reference on which it recurses forever, with no depth cap
and no `BadPackFile` report. -/
theorem c3_success_chain_ends_plain :
    ∀ (fuel : Nat) (env : DeltaEnv) (deltas : List got_delta) (path : String)
      (pos delta_type delta_offset delta_size : Nat) (res : List got_delta),
    resolve_delta_chain env fuel deltas path pos delta_type delta_offset delta_size =
      some (.ok res) →
    deltas.length < res.length ∧
      ∃ front e, res = front ++ [e] ∧
        (e.delta_type = 1 ∨ e.delta_type = 2 ∨ e.delta_type = 3 ∨ e.delta_type = 4) := by
  intro fuel
  induction fuel with
  | zero =>
    intro env deltas path pos dt doff dsz res h
    exact absurd h (by simp [resolve_delta_chain])
  | succ n ih =>
    intro env deltas path pos dt doff dsz res h
    simp only [resolve_delta_chain] at h
    split at h
    case isTrue hplain =>
      simp only [Option.some.injEq, Except.ok.injEq] at h
      subst h
      exact ⟨by simp, deltas, ⟨path, dt, doff, dsz⟩, rfl, hplain⟩
    case isFalse hplain =>
      split at h
      case isTrue h6 =>
        split at h
        next e heq => simp at h
        next base heq =>
          split at h
          next e heq2 => simp at h
          next bt bs btslen heq2 =>
            have hh := ih env (deltas ++ [⟨path, dt, doff, dsz⟩]) path
              (base.toNat + btslen) bt (base.toNat + btslen) bs res h
            refine ⟨?_, hh.2⟩
            have h1 := hh.1
            simp only [List.length_append, List.length_cons, List.length_nil] at h1
            omega
      case isFalse h6 =>
        split at h
        case isTrue h7 =>
          split at h
          case isTrue hshort => simp at h
          case isFalse hshort =>
            split at h
            next heq => simp at h
            next bpath boff heq =>
              split at h
              next e heq2 => simp at h
              next bt bs btslen heq2 =>
                have hh := ih env (deltas ++ [⟨path, dt, doff, dsz⟩]) bpath
                  (boff + btslen) bt (boff + btslen) bs res h
                refine ⟨?_, hh.2⟩
                have h1 := hh.1
                simp only [List.length_append, List.length_cons, List.length_nil] at h1
                omega
        case isFalse h7 => simp at h

theorem c3_success_witness :
    ([] : List got_delta).length < [(⟨"p", 1, 0, 0⟩ : got_delta)].length ∧
      ∃ front e, [(⟨"p", 1, 0, 0⟩ : got_delta)] = front ++ [e] ∧
        (e.delta_type = 1 ∨ e.delta_type = 2 ∨ e.delta_type = 3 ∨ e.delta_type = 4) :=
  c3_success_chain_ends_plain 1 c3_env0 [] "p" 0 1 0 0 [⟨"p", 1, 0, 0⟩] rfl

/-! ## Theorems: C7, C8, C9, C10 -/

/-- C7 (code evaluation at the failing input): with only the SIGTERM
received-flag set, `tog_fatal_signal_received` returns false — it tests
`tog_sigint_received` twice and never reads `tog_sigterm_received`
(which its own handler `tog_sigterm` sets) — so the `view_loop` guard
keeps iterating, contradicting the claim that receipt of SIGTERM alone
ends the main loop. -/
theorem c7_sigterm_ignored :
    tog_fatal_signal_received c7_sigterm_only = false ∧
      view_loop_continues true false c7_sigterm_only = true :=
  ⟨rfl, rfl⟩

theorem decimal_foldl_mono :
    ∀ (ds : List Nat) (n : Nat), n ≤ List.foldl (fun n d => n * 10 + d) n ds := by
  intro ds
  induction ds with
  | nil => intro n; exact le_refl n
  | cons d t ih =>
    intro n
    rw [List.foldl_cons]
    exact le_trans (by omega) (ih (n * 10 + d))

theorem clamped_foldl_eq_pure :
    ∀ (ds : List Nat) (n : Nat),
    List.foldl (fun n d => n * 10 + d) n ds ≤ 9999999 →
    List.foldl get_compound_key_step n ds = List.foldl (fun n d => n * 10 + d) n ds := by
  intro ds
  induction ds with
  | nil => intro n _; rfl
  | cons d t ih =>
    intro n h
    rw [List.foldl_cons] at h
    have hmono := decimal_foldl_mono t (n * 10 + d)
    have hn : ¬ 9999999 ≤ n := by omega
    rw [List.foldl_cons, List.foldl_cons, get_compound_key_step, if_neg hn]
    exact ih (n * 10 + d) h

theorem clamped_foldl_bound :
    ∀ (ds : List Nat) (n : Nat), (∀ d ∈ ds, d ≤ 9) → n ≤ 99999989 →
    List.foldl get_compound_key_step n ds ≤ 99999989 := by
  intro ds
  induction ds with
  | nil => intro n _ hn; exact hn
  | cons d t ih =>
    intro n hd hn
    have hd9 : d ≤ 9 := hd d (List.mem_cons_self d t)
    have ht : ∀ x ∈ t, x ≤ 9 := fun x hx => hd x (List.mem_cons_of_mem d hx)
    rw [List.foldl_cons]
    apply ih _ ht
    rw [get_compound_key_step]
    by_cases hc : 9999999 ≤ n
    · rw [if_pos hc]; omega
    · rw [if_neg hc]; omega

/-- C8 (amended): the count computed by `get_compound_key` equals the
decimal value `sum(digit_i * 10^(k-1-i))` whenever that value does not
exceed 9,999,999; in general the clamp is applied to the accumulator
before each digit is folded in, so the stored count can overshoot the cap
by one final digit and is bounded by 99,999,989 (not by 9,999,999). -/
theorem c8_clamped_prefix_fold (ds : List Nat) (h9 : ∀ d ∈ ds, d ≤ 9) :
    (decimal_value ds ≤ 9999999 → get_compound_key_count ds = decimal_value ds) ∧
      get_compound_key_count ds ≤ 99999989 := by
  constructor
  · intro hle
    exact clamped_foldl_eq_pure ds 0 hle
  · exact clamped_foldl_bound ds 0 h9 (by omega)

theorem c8_compound_key_witness :
    get_compound_key_count [2, 5] = 25 ∧ get_compound_key_count [2, 5] ≤ 99999989 := by
  have h := c8_clamped_prefix_fold [2, 5] (by decide)
  exact ⟨(h.1 (by decide)).trans rfl, h.2⟩

/-- C8 counterexample: for the digit sequence `9 9 9 9 9 9 8 9` (decimal
value 99,999,989) the stored count is 99,999,989 — the seventh prefix
9,999,998 is still below the cap, so the eighth digit is folded in
unclamped — which differs from the claimed value
`min(99999989, 9999999) = 9999999` and exceeds the cap. -/
theorem c8_exceeds_cap_cex :
    get_compound_key_count [9, 9, 9, 9, 9, 9, 8, 9] = 99999989 ∧
      Nat.min (decimal_value [9, 9, 9, 9, 9, 9, 8, 9]) 9999999 = 9999999 ∧
      get_compound_key_count [9, 9, 9, 9, 9, 9, 8, 9] ≠
        Nat.min (decimal_value [9, 9, 9, 9, 9, 9, 8, 9]) 9999999 := by
  refine ⟨rfl, rfl, by decide⟩

/-- C9: once the blame view's done/quit flag is set (always under the
global mutex), every invocation of the annotation callback leaves the
`lines[]` array unchanged — no slot's annotated bit or id is written —
and (when the range check passes, as it does for the external blamer's
calls) the callback returns `GOT_ERR_ITER_COMPLETED`, which the join in
`stop_blame` maps to success. -/
theorem c9_quit_blocks_writes (a_nlines : Nat) (lines : List tog_blame_line)
    (nlines lineno : Int) (id : List Nat) :
    (blame_cb a_nlines true lines nlines lineno id).1 = lines ∧
      (¬(nlines ≠ (a_nlines : Int) ∨ (lineno ≠ -1 ∧ lineno < 1) ∨ lineno > (a_nlines : Int)) →
        (blame_cb a_nlines true lines nlines lineno id).2 = some .IterCompleted ∧
          stop_blame_map (blame_cb a_nlines true lines nlines lineno id).2 = none) := by
  by_cases hr : nlines ≠ (a_nlines : Int) ∨ (lineno ≠ -1 ∧ lineno < 1) ∨ lineno > (a_nlines : Int)
  · refine ⟨?_, fun hn => absurd hr hn⟩
    simp only [blame_cb, if_pos hr]
  · refine ⟨?_, fun _ => ⟨?_, ?_⟩⟩
    · simp only [blame_cb, if_neg hr, if_true]
    · simp only [blame_cb, if_neg hr, if_true]
    · simp only [blame_cb, if_neg hr, if_true, stop_blame_map]

theorem c9_quit_witness :
    (blame_cb 3 true c9_lines0 3 1 []).1 = c9_lines0 ∧
      (blame_cb 3 true c9_lines0 3 1 []).2 = some .IterCompleted ∧
      stop_blame_map (blame_cb 3 true c9_lines0 3 1 []).2 = none := by
  have h := c9_quit_blocks_writes 3 c9_lines0 3 1 []
  have h2 := h.2 (by decide)
  exact ⟨h.1, h2.1, h2.2⟩

theorem free_commits_go_eq :
    ∀ (l : List commit_queue_entry) (q : commit_queue), q.head = l →
    free_commits_go l q = { ncommits := q.ncommits - l.length, head := [] } := by
  intro l
  induction l with
  | nil =>
    intro q h
    cases q with
    | mk nc hd =>
      simp only at h
      subst h
      rfl
  | cons a t ih =>
    intro q h
    rw [free_commits_go]
    rw [ih (pop_commit q) (by simp [pop_commit, h])]
    simp only [pop_commit, List.length_cons]
    congr 1
    omega

theorem run_log_ops_inv :
    ∀ (ops : List LogOp) (q : commit_queue),
    q.ncommits = q.head.length →
    q.head.map commit_queue_entry.idx = List.range q.head.length →
    (List.foldl log_op_apply q ops).ncommits = (List.foldl log_op_apply q ops).head.length ∧
      (List.foldl log_op_apply q ops).head.map commit_queue_entry.idx =
        List.range (List.foldl log_op_apply q ops).head.length := by
  intro ops
  induction ops with
  | nil => intro q h1 h2; exact ⟨h1, h2⟩
  | cons op t ih =>
    intro q h1 h2
    rw [List.foldl_cons]
    cases op with
    | append =>
      apply ih
      · simp [log_op_apply, queue_commits_append, h1]
      · simp only [log_op_apply, queue_commits_append, List.map_append, List.map_cons,
          List.map_nil, List.length_append, List.length_cons, List.length_nil]
        rw [h2, h1, List.range_succ]
    | clear =>
      have hfc : log_op_apply q .clear =
          { ncommits := q.ncommits - q.head.length, head := [] } := by
        rw [show log_op_apply q .clear = free_commits q from rfl, free_commits,
          free_commits_go_eq q.head q rfl]
      apply ih
      · rw [hfc]
        simp only [List.length_nil]
        omega
      · rw [hfc]
        simp

/-- C10: after every sequence of the commit-queue operations the program
performs (loader appends and queue clears), the entries read head to tail
carry `idx` values `0, 1, 2, ...` — strictly increasing and contiguous
from 0, with the entry at position `j` having `idx = j` — and `ncommits`
equals the number of entries; each append assigns `idx = ncommits`, the
next sequential index. -/
theorem c10_queue_idx_invariant (ops : List LogOp) :
    (run_log_ops ops).head.map commit_queue_entry.idx =
        List.range (run_log_ops ops).head.length ∧
      (run_log_ops ops).ncommits = (run_log_ops ops).head.length := by
  have h := run_log_ops_inv ops { ncommits := 0, head := [] } rfl rfl
  exact ⟨h.2, h.1⟩
